import Mathlib

/-!
Shallow embedding of `src/bertopic/plotting/_topics_per_class.py`
(`visualize_topics_per_class`).

Numbers in the frequency / denominator tables are modelled as exact
rationals (`ℚ`); the result of a numpy float division is modelled by `PVal`,
which distinguishes finite values from `inf` / `-inf` / `nan` so that the
behaviour of division by a zero denominator is captured exactly.
Python runtime errors (IndexError, UnboundLocalError, KeyError) are modelled
by `Except PyError`.  Conditionally-assigned Python locals that are read on a
path where they were never assigned raise `PyError.unboundLocal`, following
CPython semantics for function-local variables.
-/

set_option maxHeartbeats 1000000

namespace BERTopicViz

/-- Python / numpy runtime errors that `visualize_topics_per_class` can raise. -/
inductive PyError where
  | indexError : String → PyError
  | unboundLocal : String → PyError
  | keyError : String → PyError
deriving DecidableEq, Repr

/-- Result of a numpy float division on exact inputs: a finite rational,
an infinity, or NaN. -/
inductive PVal where
  | fin : ℚ → PVal
  | inf : PVal
  | negInf : PVal
  | nan : PVal
deriving DecidableEq, Repr

/-- numpy division semantics (`numerator / denomenator` at line 132 of the
source, where the numerator is a numpy scalar): division by zero emits a
RuntimeWarning and yields inf / -inf / nan, it does not raise. -/
def pyDiv (n d : ℚ) : PVal :=
  if d = 0 then (if n = 0 then PVal.nan else if 0 < n then PVal.inf else PVal.negInf)
  else PVal.fin (n / d)

/-- Round to the nearest integer, ties to even (Python float formatting). -/
def roundHalfEven (q : ℚ) : ℤ :=
  let f : ℤ := ⌊q⌋
  let frac : ℚ := q - (f : ℚ)
  if frac < 1/2 then f
  else if 1/2 < frac then f + 1
  else if f % 2 = 0 then f else f + 1

/-- Two-digit zero padding of the cents part of a percentage. -/
def natPad2 (n : Nat) : String := if n < 10 then "0" ++ toString n else toString n

/-- The `f"{numerator / denomenator:.2%}"` format of line 133: value times
100, two decimals, a trailing percent sign (exact-arithmetic rendering). -/
def formatPct (v : PVal) : String :=
  match v with
  | PVal.fin q =>
    let m : ℤ := roundHalfEven (q * 10000)
    let s := if m < 0 then "-" else ""
    let a := m.natAbs
    s ++ toString (a / 100) ++ "." ++ natPad2 (a % 100) ++ "%"
  | PVal.inf => "inf%"
  | PVal.negInf => "-inf%"
  | PVal.nan => "nan%"

/-- Rendering of a table number inside the f-string of line 137. -/
def ratRepr (q : ℚ) : String :=
  if q.den = 1 then toString q.num else toString q.num ++ "/" ++ toString q.den

/-- Row of the `topics_per_class` data frame: columns Topic, Class,
Frequency, Words. -/
structure TopicClassRow where
  Topic : Int
  Class : String
  Frequency : ℚ
  Words : String
deriving DecidableEq, Repr

/-- Row of the optional `denomenators_per_class` data frame: columns Class
and Denomenator (spelling as in the source). -/
structure DenomRow where
  Class : String
  Denomenator : ℚ
deriving DecidableEq, Repr

/-- The `topics_per_class` data frame: its rows, plus the "Name" column,
which is absent (`none`) until line 87 assigns it.  Entries of the name
column are `Option String`, `none` standing for a NaN produced by `.map` on
a topic id missing from the label dictionary. -/
structure TPCFrame where
  rows : List TopicClassRow
  nameCol : Option (List (Option String))
deriving DecidableEq, Repr

/-- The fitted-model data that the function reads: `get_topic_freq().Topic`
(ordered by descending global frequency), `topic_labels_` (topic id to
default label), `custom_labels_` and `_outliers`. -/
structure TopicModel where
  rankedTopics : List Int
  topicLabels : List (Int × String)
  customLabels : Option (List String)
  outliers : Int
deriving DecidableEq, Repr

/-- Plotly trace visibility: `True` or the string `"legendonly"`. -/
inductive Visibility where
  | shown : Visibility
  | legendonly : Visibility
deriving DecidableEq, Repr

/-- Value of the Python local `x` of the loop body.  `l2normalized fs`
stands for `sklearn.preprocessing.normalize` applied to the row vector
`fs` (lines 107-108); its numeric content is never observable in a returned
figure, because line 151's `else` (paired with `if as_percentage`, line 110)
overwrites `x` on every non-percentage path before a trace is completed. -/
inductive XVals where
  | l2normalized : List ℚ → XVals
  | rawFreq : List ℚ → XVals
  | pct : List PVal → XVals
deriving DecidableEq, Repr

/-- One `go.Bar` trace (lines 154-169), with the fields the source sets.
`name` is `Option String` because `trace_data.Name.values[0]` can be NaN. -/
structure BarTrace where
  y : List String
  x : XVals
  visible : Visibility
  markerColor : String
  name : Option String
  hovertext : List String
deriving DecidableEq, Repr

/-- One row of the per-topic `debug_table` (lines 140-148): columns Class
(stripped), Numerator, Denomenator, Percentage, Topic (the display label). -/
structure DebugRow where
  Class : String
  Numerator : ℚ
  Denomenator : ℚ
  Percentage : String
  Topic : Option String
deriving DecidableEq, Repr

/-- One entry of the dropdown `updatemenu` (lines 227-242): its label and
the cell values its `update` action installs in the combined table.  The
action carries nothing else; in particular it never touches a bar trace. -/
structure MenuButton where
  label : Option String
  cellsValues : List DebugRow
deriving DecidableEq, Repr

/-- The produced figure: bar traces, the combined debug table (and the name
the table trace is given), the optional denominator table, the dropdown
buttons, and the layout fields the source sets. -/
structure Figure where
  barTraces : List BarTrace
  combinedRows : List DebugRow
  combinedTableName : Option String
  denomTableRows : Option (List DenomRow)
  xaxisTitle : String
  yaxisTitle : String
  titleText : String
  legendTitle : String
  tickformat : String
  width : Nat
  height : Nat
  updatemenuButtons : List MenuButton
deriving DecidableEq, Repr

/-- Result of a call: the returned figure (or the raised error), together
with the `topics_per_class` frame as it stands after the call (line 87
mutates the caller's frame in place). -/
structure CallResult where
  result : Except PyError Figure
  topicsPerClassAfter : TPCFrame
deriving Repr

/-- The fixed seven-colour palette of lines 56-64. -/
def pyColors : List String :=
  ["#E69F00", "#56B4E9", "#009E73", "#F0E442", "#D55E00", "#0072B2", "#CC79A7"]

/-- Topic selection, lines 66-74: filter the outlier topic out of the
ranking; an explicit `topics` list is used verbatim (`list(topics)`),
otherwise the first `top_n_topics` of the ranking sorted ascending,
otherwise the whole ranking sorted ascending. -/
def selectTopics (tm : TopicModel) (topics : Option (List Int))
    (top_n_topics : Option Nat) : List Int :=
  let ranked := tm.rankedTopics.filter (fun t => !(t == -1))
  match topics with
  | some ts => ts
  | none =>
    match top_n_topics with
    | some n => List.insertionSort (· ≤ ·) (ranked.take n)
    | none => List.insertionSort (· ≤ ·) ranked

/-- Python list indexing with negative-index wraparound;
out of range raises IndexError. -/
def pyListGet (l : List String) (i : Int) : Except PyError String :=
  let j : Int := if i < 0 then i + (l.length : Int) else i
  if j < 0 then Except.error (PyError.indexError "list index out of range")
  else
    match l.get? j.toNat with
    | some s => Except.ok s
    | none => Except.error (PyError.indexError "list index out of range")

/-- Fail-fast effectful map over a list, the shape of every Python `for`
loop in the source that can raise. -/
def exceptMapM {α β : Type} (f : α → Except PyError β) : List α → Except PyError (List β)
  | [] => Except.ok []
  | a :: as =>
    match f a with
    | Except.error e => Except.error e
    | Except.ok b =>
      match exceptMapM f as with
      | Except.error e => Except.error e
      | Except.ok bs => Except.ok (b :: bs)

/-- Default-label truncation of lines 83-86: labels longer than 40
characters are cut to 40 characters and get an ellipsis. -/
def truncLabel (s : String) : String :=
  if s.length > 40 then (s.take 40) ++ "..." else s

/-- The `topic_names` dictionary of lines 77-86: custom labels indexed at
`key + _outliers` when `custom_labels_ is not None and custom_labels`,
else the (possibly truncated) default labels. -/
def buildTopicNames (tm : TopicModel) (custom_labels : Bool) :
    Except PyError (List (Int × String)) :=
  match tm.customLabels, custom_labels with
  | some cl, true =>
    exceptMapM
      (fun kv =>
        match pyListGet cl (kv.1 + tm.outliers) with
        | Except.error e => Except.error e
        | Except.ok s => Except.ok (kv.1, s))
      tm.topicLabels
  | some _, false => Except.ok (tm.topicLabels.map (fun kv => (kv.1, truncLabel kv.2)))
  | none, _ => Except.ok (tm.topicLabels.map (fun kv => (kv.1, truncLabel kv.2)))

/-- The "Name" column installed by line 87:
`topics_per_class.Topic.map(topic_names)`; ids missing from the dictionary
map to NaN (`none`). -/
def nameColumn (names : List (Int × String)) (rows : List TopicClassRow) :
    List (Option String) :=
  rows.map (fun r => (names.find? (fun kv => kv.1 == r.Topic)).map (fun kv => kv.2))

/-- Line 89: `data = topics_per_class.loc[topics_per_class.Topic.isin(selected_topics), :]`,
rows paired with their Name-column entry. -/
def filteredData (tpc : TPCFrame) (names : List (Int × String))
    (selected : List Int) : List (TopicClassRow × Option String) :=
  (tpc.rows.zip (nameColumn names tpc.rows)).filter
    (fun rn => selected.contains rn.1.Topic)

/-- Numerator and denominator of one class of one topic, lines 118-129:
numerator is the Frequency of the first row of the topic whose Class
matches; the denominator is the first matching row of the denominator
table when one is supplied (IndexError when the class is absent there),
else `trace_data.Frequency.sum()`. -/
def computeClassEntry (td : List TopicClassRow) (denoms : Option (List DenomRow))
    (c : String) : Except PyError (ℚ × ℚ) :=
  match td.filter (fun r => r.Class == c) with
  | [] => Except.error (PyError.indexError "index 0 is out of bounds for axis 0 with size 0")
  | r :: _ =>
    match denoms with
    | some dl =>
      match dl.filter (fun d => d.Class == c) with
      | [] => Except.error (PyError.indexError "single positional indexer is out-of-bounds")
      | d :: _ => Except.ok (r.Frequency, d.Denomenator)
    | none => Except.ok (r.Frequency, (td.map (fun r2 => r2.Frequency)).sum)

/-- The percentage-mode inner loop over `trace_data.Class` (lines 117-138),
returning the (numerator, denomenator) pair accumulated for every row. -/
def computePercentages (td : List TopicClassRow) (denoms : Option (List DenomRow)) :
    Except PyError (List (ℚ × ℚ)) :=
  exceptMapM (computeClassEntry td denoms) (td.map (fun r => r.Class))

/-- Result of one iteration of the outer topic loop: the bar trace, the
rows appended to the combined table, and the values the loop-carried
locals `topic_name` / `xaxis_title` hold at the end of the iteration. -/
structure TopicTraceResult where
  trace : BarTrace
  debugRows : List DebugRow
  topicName : Option String
  xaxisTitle : String
deriving DecidableEq, Repr

/-- One iteration of the outer loop (lines 98-169) for topic `topic` at
enumeration index `idx`.  `trace_data.Name.values[0]` raises IndexError
when the topic has no row.  On every non-percentage path the hover-text
comprehension of lines 164-167 reads the local `debug_info`, which only the
`as_percentage` branch assigns, so those paths raise UnboundLocalError
before the trace is completed — note also that line 151's `else` belongs to
`if as_percentage` (line 110), so the `x` assigned by `normalize` on
line 108 is overwritten by the raw frequencies even when
`normalize_frequency` is set.  In the percentage branch the inner
`enumerate` (line 117) rebinds the loop variable `_`, so the colour index
used at line 159 is `len(trace_data) - 1`, not the topic index. -/
def processTopic (data : List (TopicClassRow × Option String))
    (denoms : Option (List DenomRow)) (as_percentage normalize_frequency : Bool)
    (idx : Nat) (topic : Int) : Except PyError TopicTraceResult :=
  let traceData := data.filter (fun rn => rn.1.Topic == topic)
  let vis : Visibility := if idx = 0 then Visibility.shown else Visibility.legendonly
  match traceData with
  | [] => Except.error (PyError.indexError "index 0 is out of bounds for axis 0 with size 0")
  | rn0 :: rest =>
    let topicName : Option String := rn0.2
    let rows := (rn0 :: rest).map (fun rn => rn.1)
    let words := rows.map (fun r => r.Words)
    let freqs := rows.map (fun r => r.Frequency)
    -- lines 107-109: dead store, unconditionally overwritten below
    let _x : XVals := if normalize_frequency then XVals.l2normalized freqs else XVals.rawFreq freqs
    if as_percentage then
      match computePercentages rows denoms with
      | Except.error e => Except.error e
      | Except.ok pairs =>
        let xs := pairs.map (fun p => pyDiv p.1 p.2)
        let debugInfo := pairs.map (fun p =>
          "Equation: <em>" ++ ratRepr p.1 ++ " / " ++ ratRepr p.2 ++ "</em> = <em>"
            ++ formatPct (pyDiv p.1 p.2) ++ "</em>")
        let debugRows := List.zipWith
          (fun r p => DebugRow.mk r.Class.trim p.1 p.2 (formatPct (pyDiv p.1 p.2)) topicName)
          rows pairs
        let hover := List.zipWith (fun w d => w ++ "<br>" ++ d) words debugInfo
        let colorIdx := (rn0 :: rest).length - 1
        Except.ok
          { trace :=
              { y := rows.map (fun r => r.Class)
                x := XVals.pct xs
                visible := vis
                markerColor := pyColors.getD (colorIdx % 7) ""
                name := topicName
                hovertext := hover }
            debugRows := debugRows
            topicName := topicName
            xaxisTitle := "Frequency (%)" }
    else
      -- lines 151-153 set x to the raw frequencies, then the go.Bar call
      -- of lines 154-168 evaluates its hovertext argument, which reads the
      -- never-assigned local debug_info
      Except.error (PyError.unboundLocal "local variable debug_info referenced before assignment")

/-- The outer loop `for _, topic in enumerate(selected_topics)` of
lines 98-169, threading the enumeration index. -/
def processAll (data : List (TopicClassRow × Option String))
    (denoms : Option (List DenomRow)) (as_percentage normalize_frequency : Bool) :
    Nat → List Int → Except PyError (List TopicTraceResult)
  | _, [] => Except.ok []
  | i, t :: ts =>
    match processTopic data denoms as_percentage normalize_frequency i t with
    | Except.error e => Except.error e
    | Except.ok r =>
      match processAll data denoms as_percentage normalize_frequency (i + 1) ts with
      | Except.error e => Except.error e
      | Except.ok rs => Except.ok (r :: rs)

/-- First-occurrence deduplication, the behaviour of
`pandas.Series.unique()` at line 241. -/
def firstOccUnique {α : Type} [DecidableEq α] : List α → List α
  | [] => []
  | a :: as => a :: firstOccUnique (as.filter (fun b => b ≠ a))
termination_by l => l.length
decreasing_by
  simp_wf
  exact Nat.lt_succ_of_le (List.length_filter_le _ _)

/-- The distinct topic labels of the combined table, in first-occurrence
order (`tables["Topic"].unique()`). -/
def pandasUniqueLabels (tables : List DebugRow) : List (Option String) :=
  firstOccUnique (tables.map (fun r => r.Topic))

/-- Equality as `Series.eq` computes it at line 236: NaN compares unequal
to everything, including NaN. -/
def nanEq (a b : Option String) : Bool :=
  match a, b with
  | some x, some y => x == y
  | _, _ => false

/-- The dropdown buttons of lines 227-242: one button labelled "All"
carrying the full combined table, then one button per distinct topic label
carrying the rows whose Topic equals that label (the "All" test of line 235
is re-run for every label). -/
def mkButtons (tables : List DebugRow) : List MenuButton :=
  (some "All" :: pandasUniqueLabels tables).map
    (fun c =>
      { label := c
        cellsValues :=
          if c == some "All" then tables
          else tables.filter (fun r => nanEq r.Topic c) })

/-- Lines 171-249 after the topic loop: the combined-table trace is given
`name=topic_name`, which raises UnboundLocalError when the loop body never
ran; building the dropdown over `tables["Topic"]` raises KeyError when the
accumulated `tables` frame is the empty `pd.DataFrame()` (it then has no
Topic column); otherwise the figure is assembled. -/
def assembleFigure (results : List TopicTraceResult)
    (denoms : Option (List DenomRow)) (as_percentage : Bool)
    (width height : Nat) : Except PyError Figure :=
  match results.getLast? with
  | none => Except.error (PyError.unboundLocal "local variable topic_name referenced before assignment")
  | some lastRes =>
    let tables := results.flatMap (fun r => r.debugRows)
    if tables = [] then Except.error (PyError.keyError "Topic")
    else
      Except.ok
        { barTraces := results.map (fun r => r.trace)
          combinedRows := tables
          combinedTableName := lastRes.topicName
          denomTableRows := denoms
          xaxisTitle := lastRes.xaxisTitle
          yaxisTitle := "Class"
          titleText := "<b>Topics per Class - v2</b>"
          legendTitle := "<b>Global Topic Representation"
          tickformat := if as_percentage then ".0%" else ""
          width := width
          height := height
          updatemenuButtons := mkButtons tables }

/-- The returned figure (or raised error) of a call. -/
def visualizeResult (tm : TopicModel) (tpc : TPCFrame)
    (denomenators_per_class : Option (List DenomRow)) (as_percentage : Bool)
    (top_n_topics : Option Nat) (topics : Option (List Int))
    (normalize_frequency custom_labels : Bool) (width height : Nat) :
    Except PyError Figure :=
  let selected := selectTopics tm topics top_n_topics
  match buildTopicNames tm custom_labels with
  | Except.error e => Except.error e
  | Except.ok names =>
    match processAll (filteredData tpc names selected) denomenators_per_class
        as_percentage normalize_frequency 0 selected with
    | Except.error e => Except.error e
    | Except.ok results => assembleFigure results denomenators_per_class as_percentage width height

/-- The `topics_per_class` frame after the call: line 87 assigns the Name
column on the caller's frame before any trace is built (when building the
label dictionary itself raised, the frame is untouched). -/
def visualizeAfterFrame (tm : TopicModel) (tpc : TPCFrame) (custom_labels : Bool) : TPCFrame :=
  match buildTopicNames tm custom_labels with
  | Except.error _ => tpc
  | Except.ok names => TPCFrame.mk tpc.rows (some (nameColumn names tpc.rows))

/-- `visualize_topics_per_class` (lines 9-251): the figure it returns or
the error it raises, together with the state of the caller's
`topics_per_class` frame after the call. -/
def visualize_topics_per_class (tm : TopicModel) (tpc : TPCFrame)
    (denomenators_per_class : Option (List DenomRow)) (as_percentage : Bool)
    (top_n_topics : Option Nat) (topics : Option (List Int))
    (normalize_frequency custom_labels : Bool) (width height : Nat) : CallResult :=
  CallResult.mk
    (visualizeResult tm tpc denomenators_per_class as_percentage top_n_topics topics
      normalize_frequency custom_labels width height)
    (visualizeAfterFrame tm tpc custom_labels)

/-! Concrete inputs used by the closed theorems below. -/

/-- Fallback figure making the witness-extraction definitions total; it is
never the value actually extracted. -/
def emptyFigure : Figure :=
  { barTraces := []
    combinedRows := []
    combinedTableName := none
    denomTableRows := none
    xaxisTitle := ""
    yaxisTitle := ""
    titleText := ""
    legendTitle := ""
    tickformat := ""
    width := 0
    height := 0
    updatemenuButtons := [] }

/-- Small fitted model: two ranked topics with default labels, no custom
labels, no outlier offset. -/
def tmEx : TopicModel :=
  { rankedTopics := [0, 1]
    topicLabels := [(0, "0_topic_zero"), (1, "1_topic_one")]
    customLabels := none
    outliers := 0 }

/-- The spec's percentage-mode example table: topic 0 has classes A
(Frequency 10) and B (Frequency 5), topic 1 has A (3) and B (7). -/
def exTpc : TPCFrame :=
  TPCFrame.mk
    [TopicClassRow.mk 0 "A" 10 "w0a", TopicClassRow.mk 0 "B" 5 "w0b",
     TopicClassRow.mk 1 "A" 3 "w1a", TopicClassRow.mk 1 "B" 7 "w1b"]
    none

/-- Percentage-mode call on the example table (no denominator table). -/
def exPctCall : CallResult :=
  visualize_topics_per_class tmEx exTpc none true (some 10) none false false 1250 900

/-- The figure the percentage-mode example call returns. -/
def exFig : Figure :=
  match exPctCall.result with
  | Except.ok f => f
  | Except.error _ => emptyFigure

/-- The label dictionary the example model produces. -/
def exNames : List (Int × String) := [(0, "0_topic_zero"), (1, "1_topic_one")]

/-- Topic-0 rows of the example table, as the percentage computation sees. -/
def exTdC5 : List TopicClassRow :=
  [TopicClassRow.mk 0 "A" 10 "w0a", TopicClassRow.mk 0 "B" 5 "w0b"]

/-- One-topic fitted model used by the zero-denominator call. -/
def tmC6 : TopicModel :=
  { rankedTopics := [0]
    topicLabels := [(0, "0_topic_zero")]
    customLabels := none
    outliers := 0 }

/-- Denominator table mapping class A to 0, for the zero-denominator case. -/
def exDlC6 : List DenomRow := [DenomRow.mk "A" 0]

/-- One-row table (topic 0, class A, frequency 10). -/
def exTpcC6 : TPCFrame := TPCFrame.mk [TopicClassRow.mk 0 "A" 10 "wa"] none

/-- Percentage-mode call whose resolved denominator is 0. -/
def exC6Call : CallResult :=
  visualize_topics_per_class tmC6 exTpcC6 (some exDlC6) true (some 10) none false false 1250 900

/-- The figure the zero-denominator call returns. -/
def exFigC6 : Figure :=
  match exC6Call.result with
  | Except.ok f => f
  | Except.error _ => emptyFigure

/-- The filtered data the zero-denominator call hands to its topic loop. -/
def exDataC6 : List (TopicClassRow × Option String) :=
  [(TopicClassRow.mk 0 "A" 10 "wa", some "0_topic_zero")]

/-- The loop-iteration result of the zero-denominator call. -/
def exResC6 : TopicTraceResult :=
  match processTopic exDataC6 (some exDlC6) true false 0 0 with
  | Except.ok r => r
  | Except.error _ =>
    TopicTraceResult.mk
      (BarTrace.mk [] (XVals.rawFreq []) Visibility.shown "" none []) [] none ""

/-! Helper lemmas. -/

/-- Getting an element of a mapped list. -/
theorem get_map_helper {α β : Type} (f : α → β) :
    ∀ (l : List α) (i : Nat) (h1 : i < (l.map f).length) (h2 : i < l.length),
      (l.map f).get ⟨i, h1⟩ = f (l.get ⟨i, h2⟩) := by
  intro l
  induction l with
  | nil => intro i h1 h2; simp at h2
  | cons a as ih =>
    intro i h1 h2
    cases i with
    | zero => rfl
    | succ j => exact ih j (by simpa using h1) (by simpa using h2)

/-- Transport of a list index along a list equality. -/
theorem get_of_list_eq {α : Type} {l l' : List α} (h : l = l') (i : Nat) (hi : i < l.length) :
    ∃ hi' : i < l'.length, l.get ⟨i, hi⟩ = l'.get ⟨i, hi'⟩ := by
  subst h
  exact ⟨hi, rfl⟩

/-- Inversion of a successful `exceptMapM`: lengths agree and the function
succeeds index by index. -/
theorem exceptMapM_ok {α β : Type} (f : α → Except PyError β) :
    ∀ (l : List α) (ys : List β), exceptMapM f l = Except.ok ys →
      ys.length = l.length ∧
      ∀ i (hi : i < l.length) (hi' : i < ys.length),
        f (l.get ⟨i, hi⟩) = Except.ok (ys.get ⟨i, hi'⟩) := by
  intro l
  induction l with
  | nil =>
    intro ys h
    simp only [exceptMapM] at h
    cases h
    exact ⟨rfl, fun i hi => by simp at hi⟩
  | cons a as ih =>
    intro ys h
    simp only [exceptMapM] at h
    split at h
    · cases h
    · rename_i b hfa
      split at h
      · cases h
      · rename_i bs hrest
        cases h
        obtain ⟨hlen, hget⟩ := ih bs hrest
        refine ⟨by simp [hlen], ?_⟩
        intro i hi hi'
        cases i with
        | zero => simpa using hfa
        | succ j =>
          have hj : j < as.length := by simpa using hi
          have hj' : j < bs.length := by simpa using hi'
          simpa using hget j hj hj'

/-- With pairwise-distinct class names, filtering a topic's rows on the
class of its `i`-th row returns exactly that row. -/
theorem filter_class_singleton (td : List TopicClassRow)
    (hnd : (td.map (fun r => r.Class)).Nodup) :
    ∀ (i : Nat) (hi : i < td.length),
      td.filter (fun r => r.Class == (td.get ⟨i, hi⟩).Class) = [td.get ⟨i, hi⟩] := by
  induction td with
  | nil => intro i hi; simp at hi
  | cons r rest ih =>
    rw [List.map_cons, List.nodup_cons] at hnd
    obtain ⟨hnotin, hnd'⟩ := hnd
    intro i hi
    cases i with
    | zero =>
      have hfrest : rest.filter (fun s => s.Class == r.Class) = [] := by
        rw [List.filter_eq_nil_iff]
        intro s hs
        simp only [beq_iff_eq]
        intro hcl
        exact hnotin (by rw [← hcl]; exact List.mem_map_of_mem _ hs)
      show (r :: rest).filter (fun s => s.Class == r.Class) = [r]
      rw [List.filter_cons]
      simp [hfrest]
    | succ j =>
      have hj : j < rest.length := by simpa using hi
      show (r :: rest).filter (fun s => s.Class == (rest.get ⟨j, hj⟩).Class) = [rest.get ⟨j, hj⟩]
      rw [List.filter_cons]
      have hne : (r.Class == (rest.get ⟨j, hj⟩).Class) = false := by
        rw [beq_eq_false_iff_ne]
        intro hcl
        exact hnotin (by rw [hcl]; exact List.mem_map_of_mem _ (rest.get_mem j hj))
      rw [hne]
      simp only [Bool.false_eq_true, if_false]
      exact ih hnd' j hj

/-- Inversion of a successful run of the outer topic loop. -/
theorem processAll_ok (data : List (TopicClassRow × Option String))
    (denoms : Option (List DenomRow)) (ap nf : Bool) :
    ∀ (ts : List Int) (start : Nat) (rs : List TopicTraceResult),
      processAll data denoms ap nf start ts = Except.ok rs →
      rs.length = ts.length ∧
      ∀ j (hj : j < ts.length) (hj' : j < rs.length),
        processTopic data denoms ap nf (start + j) (ts.get ⟨j, hj⟩)
          = Except.ok (rs.get ⟨j, hj'⟩) := by
  intro ts
  induction ts with
  | nil =>
    intro start rs h
    simp only [processAll] at h
    cases h
    exact ⟨rfl, fun j hj => by simp at hj⟩
  | cons t ts ih =>
    intro start rs h
    simp only [processAll] at h
    split at h
    · cases h
    · rename_i r hr
      split at h
      · cases h
      · rename_i rs' hrs
        cases h
        obtain ⟨hlen, hget⟩ := ih (start + 1) rs' hrs
        refine ⟨by simp [hlen], ?_⟩
        intro j hj hj'
        cases j with
        | zero => simpa using hr
        | succ k =>
          have hk : k < ts.length := by simpa using hj
          have hk' : k < rs'.length := by simpa using hj'
          have hrec := hget k hk hk'
          have harith : start + (k + 1) = (start + 1) + k := by omega
          rw [harith]
          simpa using hrec

/-- Inversion of a successful loop iteration: the trace's visibility flag
comes from the enumeration index, and (since only the percentage branch
can succeed) its plotted values are the pairwise divisions produced by the
percentage computation. -/
theorem processTopic_ok_fields (data : List (TopicClassRow × Option String))
    (denoms : Option (List DenomRow)) (ap nf : Bool) (idx : Nat) (topic : Int)
    (res : TopicTraceResult)
    (h : processTopic data denoms ap nf idx topic = Except.ok res) :
    res.trace.visible = (if idx = 0 then Visibility.shown else Visibility.legendonly) ∧
    ∃ pairs,
      computePercentages ((data.filter (fun rn => rn.1.Topic == topic)).map (fun rn => rn.1))
          denoms = Except.ok pairs ∧
      res.trace.x = XVals.pct (pairs.map (fun p => pyDiv p.1 p.2)) := by
  simp only [processTopic] at h
  split at h
  · cases h
  · rename_i rn0 rest heq
    split at h
    · split at h
      · cases h
      · rename_i pairs hcp
        cases h
        refine ⟨rfl, pairs, ?_, rfl⟩
        rw [heq]
        exact hcp
    · cases h

/-- Inversion of a successful figure assembly. -/
theorem assembleFigure_ok_fields (results : List TopicTraceResult)
    (denoms : Option (List DenomRow)) (ap : Bool) (w hgt : Nat) (fig : Figure)
    (h : assembleFigure results denoms ap w hgt = Except.ok fig) :
    results ≠ [] ∧
    fig.barTraces = results.map (fun r => r.trace) ∧
    fig.combinedRows = results.flatMap (fun r => r.debugRows) ∧
    fig.updatemenuButtons = mkButtons (results.flatMap (fun r => r.debugRows)) := by
  simp only [assembleFigure] at h
  split at h
  · cases h
  · rename_i lastRes hlast
    split at h
    · cases h
    · cases h
      refine ⟨?_, rfl, rfl, rfl⟩
      intro hnil
      subst hnil
      simp at hlast

/-- Inversion of a call that returned a figure: the label dictionary, the
topic loop and the assembly all succeeded. -/
theorem visualize_ok_results (tm : TopicModel) (tpc : TPCFrame)
    (denoms : Option (List DenomRow)) (ap : Bool) (tn : Option Nat)
    (ts : Option (List Int)) (nf cl : Bool) (w hgt : Nat) (fig : Figure)
    (hok : (visualize_topics_per_class tm tpc denoms ap tn ts nf cl w hgt).result
      = Except.ok fig) :
    ∃ names results,
      buildTopicNames tm cl = Except.ok names ∧
      processAll (filteredData tpc names (selectTopics tm ts tn)) denoms ap nf 0
        (selectTopics tm ts tn) = Except.ok results ∧
      assembleFigure results denoms ap w hgt = Except.ok fig := by
  replace hok : visualizeResult tm tpc denoms ap tn ts nf cl w hgt = Except.ok fig := hok
  simp only [visualizeResult] at hok
  split at hok
  · cases hok
  · rename_i names hnames
    split at hok
    · cases hok
    · rename_i results hres
      exact ⟨names, results, hnames, hres, hok⟩

/-- Membership in the first-occurrence deduplication is membership in the
original list. -/
theorem firstOccUnique_mem {α : Type} [DecidableEq α] :
    ∀ (l : List α) (x : α), x ∈ firstOccUnique l ↔ x ∈ l := by
  intro l
  induction l using firstOccUnique.induct with
  | case1 => intro x; simp [firstOccUnique]
  | case2 a as ih =>
    intro x
    rw [firstOccUnique]
    by_cases hxa : x = a
    · subst hxa
      simp
    · constructor
      · intro hx
        rcases List.mem_cons.mp hx with h | h
        · exact absurd h hxa
        · exact List.mem_cons_of_mem _ (List.mem_filter.mp ((ih x).mp h)).1
      · intro hx
        rcases List.mem_cons.mp hx with h | h
        · exact absurd h hxa
        · exact List.mem_cons_of_mem _ ((ih x).mpr (List.mem_filter.mpr ⟨h, by simpa using hxa⟩))

/-- The first-occurrence deduplication has no duplicates. -/
theorem firstOccUnique_nodup {α : Type} [DecidableEq α] :
    ∀ l : List α, (firstOccUnique l).Nodup := by
  intro l
  induction l using firstOccUnique.induct with
  | case1 => simp [firstOccUnique]
  | case2 a as ih =>
    rw [firstOccUnique]
    refine List.nodup_cons.mpr ⟨?_, ih⟩
    intro hmem
    have := (List.mem_filter.mp ((firstOccUnique_mem _ a).mp hmem)).2
    simp at this

/-- Length of the dropdown-button list. -/
theorem mkButtons_length (tables : List DebugRow) :
    (mkButtons tables).length = (pandasUniqueLabels tables).length + 1 := by
  simp [mkButtons]

/-- The dropdown always starts with the "All" button carrying the full
combined table. -/
theorem mkButtons_first (tables : List DebugRow) :
    ∃ bs, mkButtons tables = MenuButton.mk (some "All") tables :: bs := by
  refine ⟨(pandasUniqueLabels tables).map (fun c =>
    MenuButton.mk c (if c == some "All" then tables else tables.filter (fun r => nanEq r.Topic c))), ?_⟩
  simp [mkButtons]

/-- Every dropdown button carries either the full combined table or the
rows whose Topic label equals its own label; nothing else. -/
theorem mkButtons_cells (tables : List DebugRow) :
    ∀ b ∈ mkButtons tables,
      b.cellsValues = tables ∨
      b.cellsValues = tables.filter (fun r => nanEq r.Topic b.label) := by
  intro b hb
  simp only [mkButtons, List.mem_map] at hb
  obtain ⟨c, _, rfl⟩ := hb
  by_cases hc : (c == some "All") = true
  · left
    simp [hc]
  · right
    simp [hc]

/-! Claim theorems. -/

/-- C1 (code_bug evidence): in normalized mode (`normalize_frequency=True`,
`as_percentage=False`) the call raises UnboundLocalError on the never-
assigned local `debug_info` instead of plotting L2-normalized frequencies;
moreover the `else` of line 151 would overwrite the normalized `x` with the
raw frequencies anyway. -/
theorem normalized_mode_raises :
    (visualize_topics_per_class tmEx exTpc none false (some 10) none true false 1250 900).result
      = Except.error (PyError.unboundLocal "local variable debug_info referenced before assignment") := by
  rfl

/-- C2 (code_bug evidence): selecting zero topics (`topics=[]`) raises
UnboundLocalError on `topic_name` (line 174 reads the loop variable of a
loop whose body never ran) instead of returning a figure with zero bar
traces. -/
theorem empty_selection_raises :
    (visualize_topics_per_class tmEx exTpc none true (some 10) (some []) false false 1250 900).result
      = Except.error (PyError.unboundLocal "local variable topic_name referenced before assignment") := by
  rfl

/-- C3 (counterexample): the call is not side-effect-free — after a
successful percentage-mode call the input `topics_per_class` frame has
gained a Name column, so it differs from the frame that was passed in. -/
theorem input_table_mutated :
    exPctCall.topicsPerClassAfter ≠ exTpc := by
  decide

/-- C3 (amended): whenever the label dictionary is built successfully the
call mutates the caller's `topics_per_class` frame in exactly one way: it
installs (or overwrites) the Name column, mapping each row's topic id to
its display label; the rows themselves are unchanged. -/
theorem name_column_mutation (tm : TopicModel) (tpc : TPCFrame)
    (denoms : Option (List DenomRow)) (ap : Bool) (tn : Option Nat)
    (ts : Option (List Int)) (nf cl : Bool) (w hgt : Nat)
    (names : List (Int × String)) (hn : buildTopicNames tm cl = Except.ok names) :
    (visualize_topics_per_class tm tpc denoms ap tn ts nf cl w hgt).topicsPerClassAfter
      = TPCFrame.mk tpc.rows (some (nameColumn names tpc.rows)) := by
  show visualizeAfterFrame tm tpc cl = _
  simp [visualizeAfterFrame, hn]

/-- Witness for the amended C3 claim at a concrete input. -/
theorem name_column_mutation_witness :
    exPctCall.topicsPerClassAfter
      = TPCFrame.mk exTpc.rows (some (nameColumn exNames exTpc.rows)) :=
  name_column_mutation tmEx exTpc none true (some 10) none false false 1250 900 exNames rfl

/-- C4 (code_bug evidence): in raw mode (`as_percentage=False`,
`normalize_frequency=False`) the call raises UnboundLocalError on
`debug_info` while building the hover text, instead of returning a figure
with the raw frequencies and an empty hover explanation. -/
theorem raw_mode_raises :
    (visualize_topics_per_class tmEx exTpc none false (some 10) none false false 1250 900).result
      = Except.error (PyError.unboundLocal "local variable debug_info referenced before assignment") := by
  rfl

/-- C7 (counterexample): an explicit topic list is used verbatim
(`list(topics)`, line 70), not sorted ascending — `topics=[3, 1]` yields
the selection `[3, 1]`, which is not sorted. -/
theorem explicit_topics_not_sorted :
    selectTopics tmEx (some [3, 1]) (some 10) = [3, 1] ∧
    ¬ List.Sorted (· ≤ ·) (selectTopics tmEx (some [3, 1]) (some 10)) := by
  refine ⟨rfl, ?_⟩
  intro hs
  rw [show selectTopics tmEx (some [3, 1]) (some 10) = [3, 1] from rfl,
    List.sorted_cons] at hs
  have h31 : (3 : Int) ≤ 1 := hs.1 1 (by simp)
  omega

/-- C7 (amended): an explicit list is used verbatim in the order given,
taking precedence over top-N; otherwise with a top-N count the selection is
the first N topics of the outlier-filtered ranking sorted ascending; with
neither, all ranked non-outlier topics sorted ascending. -/
theorem selection_policy (tm : TopicModel) :
    (∀ (ts : List Int) (tn : Option Nat), selectTopics tm (some ts) tn = ts) ∧
    (∀ n : Nat,
      List.Sorted (· ≤ ·) (selectTopics tm none (some n)) ∧
      (selectTopics tm none (some n)).Perm
        ((tm.rankedTopics.filter (fun t => !(t == -1))).take n)) ∧
    (List.Sorted (· ≤ ·) (selectTopics tm none none) ∧
     (selectTopics tm none none).Perm (tm.rankedTopics.filter (fun t => !(t == -1)))) := by
  refine ⟨fun ts tn => rfl, fun n => ⟨?_, ?_⟩, ?_, ?_⟩
  · exact List.sorted_insertionSort _ _
  · exact List.perm_insertionSort _ _
  · exact List.sorted_insertionSort _ _
  · exact List.perm_insertionSort _ _

/-- C10: requesting a topic that has no row in `topics_per_class`
(here `topics=[5]`) raises an IndexError at `trace_data.Name.values[0]`
instead of returning a figure — each selected topic having at least one
row is a precondition of the entry point. -/
theorem missing_topic_row_raises :
    (visualize_topics_per_class tmEx exTpc none true (some 10) (some [5]) false false 1250 900).result
      = Except.error (PyError.indexError "index 0 is out of bounds for axis 0 with size 0") := by
  rfl

/-- C5: in percentage mode, for each class row of a topic (classes pairwise
distinct within the topic, and at most one denominator row per class), the
accumulated (numerator, denominator) pair has numerator equal to that row's
Frequency, and denominator equal to the matching denominator-table entry
when a table is supplied, else the sum of the topic's Frequencies; the
plotted value is `pyDiv numerator denominator`. -/
theorem percentage_values (td : List TopicClassRow) (denoms : Option (List DenomRow))
    (pairs : List (ℚ × ℚ))
    (hnd : (td.map (fun r => r.Class)).Nodup)
    (hdnd : ∀ dl, denoms = some dl → (dl.map (fun d => d.Class)).Nodup)
    (hok : computePercentages td denoms = Except.ok pairs) :
    pairs.length = td.length ∧
    ∀ i (hi : i < td.length) (hip : i < pairs.length),
      (pairs.get ⟨i, hip⟩).1 = (td.get ⟨i, hi⟩).Frequency ∧
      (denoms = none → (pairs.get ⟨i, hip⟩).2 = (td.map (fun r => r.Frequency)).sum) ∧
      (∀ dl, denoms = some dl → ∀ d ∈ dl, d.Class = (td.get ⟨i, hi⟩).Class →
        (pairs.get ⟨i, hip⟩).2 = d.Denomenator) := by
  obtain ⟨hlen, hget⟩ := exceptMapM_ok _ _ _ hok
  have hlen' : pairs.length = td.length := by simpa using hlen
  refine ⟨hlen', ?_⟩
  intro i hi hip
  have hmlen : i < (td.map (fun r => r.Class)).length := by simpa using hi
  have hcc := hget i hmlen hip
  rw [get_map_helper _ td i hmlen hi] at hcc
  rw [computeClassEntry] at hcc
  have hsing := filter_class_singleton td hnd i hi
  split at hcc
  · rename_i hfd0
    rw [hsing] at hfd0
    cases hfd0
  · rename_i r rest hfd0
    rw [hsing] at hfd0
    injection hfd0 with hr hrest
    subst hr
    split at hcc
    · rename List DenomRow => dl
      split at hcc
      · cases hcc
      · rename_i d ds hfd
        injection hcc with hpair
        have hdmem : d ∈ dl ∧ (d.Class == (td.get ⟨i, hi⟩).Class) = true :=
          List.mem_filter.mp (hfd ▸ List.mem_cons_self d ds)
        rw [← hpair]
        refine ⟨rfl, fun h => Option.noConfusion h, ?_⟩
        intro dl' hdl' d2 hd2 hcl2
        obtain rfl : dl = dl' := Option.some.inj hdl'
        have hinj := List.inj_on_of_nodup_map (hdnd dl rfl)
        have hd2d : d2 = d := by
          apply hinj hd2 hdmem.1
          rw [hcl2]
          exact (beq_iff_eq.mp hdmem.2).symm
        rw [hd2d]
    · injection hcc with hpair
      rw [← hpair]
      exact ⟨rfl, fun _ => rfl, fun dl h => Option.noConfusion h⟩

/-- Witness for C5 at the spec's own example: topic with classes A
(Frequency 10) and B (Frequency 5), no denominator table — the pairs are
(10, 15) and (5, 15) and the plotted values are 10/15 and 5/15. -/
theorem percentage_values_witness :
    computePercentages exTdC5 none = Except.ok [((10 : ℚ), 15), ((5 : ℚ), 15)] ∧
    ([((10 : ℚ), (15 : ℚ)), ((5 : ℚ), (15 : ℚ))].map (fun p => pyDiv p.1 p.2)
      = [PVal.fin (10 / 15), PVal.fin (5 / 15)]) ∧
    ([((10 : ℚ), (15 : ℚ)), ((5 : ℚ), (15 : ℚ))] : List (ℚ × ℚ)).length = exTdC5.length := by
  have h1 : computePercentages exTdC5 none = Except.ok [((10 : ℚ), 15), ((5 : ℚ), 15)] := by
    simp +decide only [computePercentages, exTdC5, List.map_cons, List.map_nil, exceptMapM,
      computeClassEntry, List.filter_cons, List.filter_nil]
    norm_num
  refine ⟨h1, ?_, ?_⟩
  · norm_num [pyDiv]
  · exact (percentage_values exTdC5 none [((10 : ℚ), 15), ((5 : ℚ), 15)]
      (by decide) (fun dl h => Option.noConfusion h) h1).1

/-- C6 (counterexample): with a supplied denominator of 0 for class A and
numerator 10 the call does not fail — it returns a figure whose plotted
value is `inf`. -/
theorem zero_denominator_returns_value :
    exC6Call.result = Except.ok exFigC6 ∧
    exFigC6.barTraces.map (fun t => t.x) = [XVals.pct [PVal.inf]] := by
  exact ⟨rfl, by decide⟩

/-- C6 (amended): a resolved denominator of 0 does not raise any error —
the division follows numpy semantics (nan for 0/0, inf for a positive and
-inf for a negative numerator) and the resulting value is what gets
plotted. -/
theorem zero_denominator_no_error (data : List (TopicClassRow × Option String))
    (denoms : Option (List DenomRow)) (nf : Bool) (idx : Nat) (topic : Int)
    (res : TopicTraceResult) (pairs : List (ℚ × ℚ))
    (hok : processTopic data denoms true nf idx topic = Except.ok res)
    (hp : computePercentages ((data.filter (fun rn => rn.1.Topic == topic)).map (fun rn => rn.1))
      denoms = Except.ok pairs) :
    res.trace.x = XVals.pct (pairs.map (fun p => pyDiv p.1 p.2)) ∧
    ∀ p ∈ pairs, p.2 = 0 →
      (pyDiv p.1 p.2 = PVal.nan ∨ pyDiv p.1 p.2 = PVal.inf ∨ pyDiv p.1 p.2 = PVal.negInf) := by
  obtain ⟨_, pairs', hp', hx⟩ := processTopic_ok_fields data denoms true nf idx topic res hok
  rw [hp] at hp'
  injection hp' with hpairs
  subst hpairs
  refine ⟨hx, ?_⟩
  intro p _ hz
  rw [pyDiv, if_pos hz]
  by_cases h0 : p.1 = 0
  · rw [if_pos h0]
    exact Or.inl rfl
  · rw [if_neg h0]
    by_cases hpos : 0 < p.1
    · rw [if_pos hpos]
      exact Or.inr (Or.inl rfl)
    · rw [if_neg hpos]
      exact Or.inr (Or.inr rfl)

/-- Witness for the amended C6 claim: class A with numerator 10 and
supplied denominator 0 — the iteration succeeds and plots `pyDiv 10 0`,
which is `inf`. -/
theorem zero_denominator_no_error_witness :
    processTopic exDataC6 (some exDlC6) true false 0 0 = Except.ok exResC6 ∧
    exResC6.trace.x = XVals.pct ([((10 : ℚ), (0 : ℚ))].map (fun p => pyDiv p.1 p.2)) ∧
    (pyDiv 10 0 = PVal.nan ∨ pyDiv 10 0 = PVal.inf ∨ pyDiv 10 0 = PVal.negInf) := by
  have h := zero_denominator_no_error exDataC6 (some exDlC6) false 0 0 exResC6
    [((10 : ℚ), (0 : ℚ))] rfl rfl
  exact ⟨rfl, h.1, h.2 ((10 : ℚ), (0 : ℚ)) (by simp) rfl⟩

/-- C8: whenever a call returns a figure, the trace list is non-empty and
the trace at selection index 0 has `visible=True` while every other trace
has `visible="legendonly"` — exactly one trace is fully visible. -/
theorem one_trace_visible (tm : TopicModel) (tpc : TPCFrame)
    (denoms : Option (List DenomRow)) (ap : Bool) (tn : Option Nat)
    (ts : Option (List Int)) (nf cl : Bool) (w hgt : Nat) (fig : Figure)
    (hok : (visualize_topics_per_class tm tpc denoms ap tn ts nf cl w hgt).result
      = Except.ok fig) :
    fig.barTraces ≠ [] ∧
    ∀ i (hi : i < fig.barTraces.length),
      (fig.barTraces.get ⟨i, hi⟩).visible
        = if i = 0 then Visibility.shown else Visibility.legendonly := by
  obtain ⟨names, results, _, hp, ha⟩ :=
    visualize_ok_results tm tpc denoms ap tn ts nf cl w hgt fig hok
  obtain ⟨hne, hbt, _, _⟩ := assembleFigure_ok_fields results denoms ap w hgt fig ha
  obtain ⟨hlen, hget⟩ := processAll_ok _ denoms ap nf _ 0 results hp
  constructor
  · rw [hbt]
    simpa using hne
  · intro i hi
    obtain ⟨hi2, hEq⟩ := get_of_list_eq hbt i hi
    have hi3 : i < results.length := by simpa using hi2
    rw [hEq, get_map_helper _ results i hi2 hi3]
    have hisel : i < (selectTopics tm ts tn).length := by rw [← hlen]; exact hi3
    have hpt := hget i hisel hi3
    have hvis := (processTopic_ok_fields _ denoms ap nf _ _ _ hpt).1
    rw [hvis]
    simp

/-- Witness for C8 at a concrete two-topic percentage-mode call: exactly
the first trace is visible. -/
theorem one_trace_visible_witness :
    exPctCall.result = Except.ok exFig ∧
    exFig.barTraces ≠ [] ∧
    exFig.barTraces.map (fun t => t.visible) = [Visibility.shown, Visibility.legendonly] := by
  have h := one_trace_visible tmEx exTpc none true (some 10) none false false 1250 900 exFig rfl
  exact ⟨rfl, h.1, by decide⟩

/-- C9: whenever a call returns a figure, its dropdown is the button list
built from the combined table: one leading "All" button carrying the full
table, then one button per distinct topic label (first-occurrence order,
no duplicates), so the count is (distinct labels) + 1; and every button's
action payload consists only of cell values drawn from the combined table
(the full table or the rows whose Topic equals the button's label) — it
carries nothing that could alter a bar trace. -/
theorem dropdown_buttons (tm : TopicModel) (tpc : TPCFrame)
    (denoms : Option (List DenomRow)) (ap : Bool) (tn : Option Nat)
    (ts : Option (List Int)) (nf cl : Bool) (w hgt : Nat) (fig : Figure)
    (hok : (visualize_topics_per_class tm tpc denoms ap tn ts nf cl w hgt).result
      = Except.ok fig) :
    fig.updatemenuButtons = mkButtons fig.combinedRows ∧
    fig.updatemenuButtons.length = (pandasUniqueLabels fig.combinedRows).length + 1 ∧
    (pandasUniqueLabels fig.combinedRows).Nodup ∧
    (∀ lab, lab ∈ pandasUniqueLabels fig.combinedRows
      ↔ lab ∈ fig.combinedRows.map (fun r => r.Topic)) ∧
    (∃ bs, fig.updatemenuButtons = MenuButton.mk (some "All") fig.combinedRows :: bs) ∧
    ∀ b ∈ fig.updatemenuButtons,
      b.cellsValues = fig.combinedRows ∨
      b.cellsValues = fig.combinedRows.filter (fun r => nanEq r.Topic b.label) := by
  obtain ⟨names, results, _, _, ha⟩ :=
    visualize_ok_results tm tpc denoms ap tn ts nf cl w hgt fig hok
  obtain ⟨_, _, hcr, hub⟩ := assembleFigure_ok_fields results denoms ap w hgt fig ha
  rw [← hcr] at hub
  refine ⟨hub, ?_, ?_, ?_, ?_, ?_⟩
  · rw [hub]
    exact mkButtons_length _
  · exact firstOccUnique_nodup _
  · intro lab
    exact firstOccUnique_mem _ lab
  · rw [hub]
    exact mkButtons_first _
  · rw [hub]
    exact mkButtons_cells _

/-- Witness for C9 at a concrete two-topic percentage-mode call. -/
theorem dropdown_buttons_witness :
    exPctCall.result = Except.ok exFig ∧
    exFig.updatemenuButtons.length = (pandasUniqueLabels exFig.combinedRows).length + 1 ∧
    (pandasUniqueLabels exFig.combinedRows).Nodup := by
  have h := dropdown_buttons tmEx exTpc none true (some 10) none false false 1250 900 exFig rfl
  exact ⟨rfl, h.2.1, h.2.2.1⟩

end BERTopicViz
